import Mathlib

/-!
# pidfdhack: SIGSYS interception on old Android releases

A shallow embedding of `stbridge/pidfdhack/pidfdhack.go`: the cgo preamble
(`sigsys_handler`, `block_sigsys`) and the Go side (`shouldIgnoreSigsys`,
`init`).

The process state that the code can observe or change is made explicit:

* the Android log sink, an append-only list of `__android_log_print` calls;
* the kernel signal disposition table, changed only by a successful
  `sigaction` call;
* the trace of `sigaction` requests that were issued.

The libc and NDK functions the code calls are the environment: `strerror` is
a parameter, the value returned by `android_get_device_api_level` is a
parameter, and the outcome of each `sigaction` call (success or failure) is a
parameter of the call.
-/

namespace pidfdhack

set_option linter.unusedVariables false

/-! ## Constants from the platform headers -/

/-- Signal number of SIGSYS on the Linux ABIs that Android supports. -/
def SIGSYS : Int := 31

/-- Flag SA_SIGINFO of `struct sigaction` on the Linux ABIs that Android supports. -/
def SA_SIGINFO : Nat := 4

/-- Value of `si_code` for a SIGSYS raised by a seccomp filter. -/
def SYS_SECCOMP : Int := 1

/-! ## Android log sink -/

/-- Priorities of `android/log.h` used by the `LOG` helper of the source. -/
inductive android_LogPriority where
  | ANDROID_LOG_INFO
  | ANDROID_LOG_WARN
  deriving DecidableEq, Repr

/-- One variadic argument handed to `__android_log_print`, tagged by the
conversion that consumes it. -/
inductive LogArg where
  /-- Argument of `%p`, a `void *`. -/
  | ptr (p : Nat)
  /-- Argument of `%u`, an `unsigned int`. -/
  | uint (u : Nat)
  /-- Argument of `%d`, an `int`. -/
  | int (d : Int)
  /-- Argument of `%s`, a C string. -/
  | str (s : String)
  deriving DecidableEq, Repr

/-- One call `__android_log_print(level, tag, fmt, args...)`. -/
structure LogLine where
  level : android_LogPriority
  tag : String
  fmt : String
  args : List LogArg
  deriving DecidableEq, Repr

/-! ## Signal records -/

/-- Function pointer stored in the handler slot of `struct sigaction`. -/
inductive SigHandlerPtr where
  /-- Null pointer, which is `SIG_DFL`. -/
  | null
  /-- Address of `sigsys_handler`. -/
  | sigsys_handler
  /-- Any other handler address. -/
  | other (addr : Nat)
  deriving DecidableEq, Repr

/-- Record `struct sigaction`; `sa_handler` and `sa_sigaction` share storage,
so one slot stands for both. -/
structure struct_sigaction where
  sa_sigaction : SigHandlerPtr
  sa_mask : Nat
  sa_flags : Nat
  sa_restorer : Nat
  deriving DecidableEq, Repr

/-- The initialiser `{ 0 }`: every member zero. -/
def struct_sigaction.zero : struct_sigaction :=
  { sa_sigaction := SigHandlerPtr.null, sa_mask := 0, sa_flags := 0, sa_restorer := 0 }

/-- The members of `siginfo_t` that `sigsys_handler` reads. -/
structure siginfo_t where
  si_code : Int
  si_errno : Int
  si_call_addr : Nat
  si_arch : Nat
  si_syscall : Int
  deriving DecidableEq, Repr

/-! ## Process state -/

/-- The part of the process that the code reads or writes. -/
structure Process where
  /-- Lines written to the Android log, oldest first. -/
  log : List LogLine
  /-- Kernel disposition of every signal. -/
  disposition : Int → struct_sigaction
  /-- Every `sigaction(signum, act, NULL)` request issued so far, oldest first. -/
  sigaction_calls : List (Int × struct_sigaction)

/-- A process at start-up: empty log, every signal at its default
disposition, no `sigaction` request issued. -/
def Process.fresh : Process :=
  { log := [], disposition := fun _ => struct_sigaction.zero, sigaction_calls := [] }

/-- The helper `LOG(level, ...)`: one `__android_log_print` call with the tag
"pidfdhack". -/
def LOG (level : android_LogPriority) (fmt : String) (args : List LogArg)
    (s : Process) : Process :=
  { s with log := s.log ++ [{ level := level, tag := "pidfdhack", fmt := fmt, args := args }] }

/-- The system call `sigaction(signum, act, NULL)`. The kernel decides whether
it fails; `fails` is that decision. On success the disposition of `signum`
becomes `act` and the call returns 0; on failure the table is left as it was
and the call returns -1. -/
def sigaction (fails : Bool) (signum : Int) (act : struct_sigaction)
    (s : Process) : Int × Process :=
  let s1 : Process := { s with sigaction_calls := s.sigaction_calls ++ [(signum, act)] }
  if fails then
    (-1, s1)
  else
    (0, { s1 with disposition := fun sig => if sig = signum then act else s1.disposition sig })

/-! ## The code -/

/-- C function `sigsys_handler(signum, info, context)`. -/
def sigsys_handler (strerror : Int → String) (signum : Int) (info : siginfo_t)
    (context : Nat) (s : Process) : Process :=
  if info.si_code = SYS_SECCOMP then
    LOG android_LogPriority.ANDROID_LOG_WARN
      "Received seccomp SIGSYS (call=%p, arch=%u, syscall=%d): %s"
      [LogArg.ptr info.si_call_addr,
       LogArg.uint info.si_arch,
       LogArg.int info.si_syscall,
       LogArg.str (strerror info.si_errno)]
      s
  else
    LOG android_LogPriority.ANDROID_LOG_WARN
      "Received non-seccomp SIGSYS: %s"
      [LogArg.str (strerror info.si_errno)]
      s

/-- C function `block_sigsys()`. -/
def block_sigsys (fails : Bool) (s : Process) : Process :=
  let sa : struct_sigaction := struct_sigaction.zero
  let sa : struct_sigaction := { sa with sa_flags := SA_SIGINFO }
  let sa : struct_sigaction := { sa with sa_sigaction := SigHandlerPtr.sigsys_handler }
  let r := sigaction fails SIGSYS sa s
  let s1 : Process :=
    if r.1 = -1 then
      LOG android_LogPriority.ANDROID_LOG_WARN "Failed to set SIGSYS handler" [] r.2
    else
      r.2
  LOG android_LogPriority.ANDROID_LOG_INFO "Successfully set SIGSYS handler" [] s1

/-- Go package variable `shouldIgnoreSigsys`; the argument is the value that
`android_get_device_api_level()` returned. The conversion of a C `int` to a
Go `int` keeps the value. -/
def shouldIgnoreSigsys (android_get_device_api_level : Int) : Bool :=
  decide (android_get_device_api_level ≤ 30)

/-- Go function `init()` of the package, run once when the library is loaded. -/
def init (android_get_device_api_level : Int) (fails : Bool) (s : Process) : Process :=
  if shouldIgnoreSigsys android_get_device_api_level then
    block_sigsys fails s
  else
    s

/-! ## Named values used in the statements -/

/-- The warning line of `block_sigsys`. -/
def failedLine : LogLine :=
  { level := android_LogPriority.ANDROID_LOG_WARN, tag := "pidfdhack",
    fmt := "Failed to set SIGSYS handler", args := [] }

/-- The informational line of `block_sigsys`. -/
def successLine : LogLine :=
  { level := android_LogPriority.ANDROID_LOG_INFO, tag := "pidfdhack",
    fmt := "Successfully set SIGSYS handler", args := [] }

/-- The registration record that `block_sigsys` builds. -/
def sigsysAction : struct_sigaction :=
  { sa_sigaction := SigHandlerPtr.sigsys_handler, sa_mask := 0,
    sa_flags := SA_SIGINFO, sa_restorer := 0 }

/-- The interceptor is installed: SIGSYS is routed to `sigsys_handler` in the
extended mode. -/
def Installed (s : Process) : Prop :=
  s.disposition SIGSYS = sigsysAction

/-- A sample `strerror` table for concrete evaluations. -/
def strerrorSample (e : Int) : String :=
  if e = 1 then "Operation not permitted"
  else if e = 38 then "Function not implemented"
  else "Unknown error"

/-- A sample seccomp fault: address 0x1000, syscall 42. -/
def seccompEvent : siginfo_t :=
  { si_code := 1, si_errno := 38, si_call_addr := 0x1000, si_arch := 0xC00000B7,
    si_syscall := 42 }

/-- A sample fault that does not come from seccomp. -/
def otherEvent : siginfo_t :=
  { si_code := 0, si_errno := 1, si_call_addr := 7, si_arch := 8, si_syscall := 9 }

/-! ## Shared lemmas -/

theorem block_sigsys_log (fails : Bool) (s : Process) :
    (block_sigsys fails s).log =
      s.log ++ (if fails then [failedLine, successLine] else [successLine]) := by
  cases fails <;> simp [block_sigsys, sigaction, LOG, failedLine, successLine]

theorem block_sigsys_calls (fails : Bool) (s : Process) :
    (block_sigsys fails s).sigaction_calls = s.sigaction_calls ++ [(SIGSYS, sigsysAction)] := by
  cases fails <;> simp [block_sigsys, sigaction, LOG, sigsysAction, struct_sigaction.zero]

theorem block_sigsys_disposition (fails : Bool) (s : Process) (sig : Int) :
    (block_sigsys fails s).disposition sig =
      if fails then s.disposition sig
      else if sig = SIGSYS then sigsysAction else s.disposition sig := by
  cases fails <;> simp [block_sigsys, sigaction, LOG, sigsysAction, struct_sigaction.zero]

theorem sigsys_handler_disposition (strerror : Int → String) (signum : Int)
    (info : siginfo_t) (context : Nat) (s : Process) :
    (sigsys_handler strerror signum info context s).disposition = s.disposition := by
  unfold sigsys_handler
  split <;> rfl

theorem sigsys_handler_calls (strerror : Int → String) (signum : Int)
    (info : siginfo_t) (context : Nat) (s : Process) :
    (sigsys_handler strerror signum info context s).sigaction_calls = s.sigaction_calls := by
  unfold sigsys_handler
  split <;> rfl

/-! ## Platform version gate -/

/-- C1: for every API level n the gate `shouldIgnoreSigsys` is true exactly
when n is at most 30, and false exactly when n is above 30. -/
theorem shouldIgnoreSigsys_iff_le_30 (n : Int) :
    (shouldIgnoreSigsys n = true ↔ n ≤ 30) ∧ (shouldIgnoreSigsys n = false ↔ 30 < n) := by
  unfold shouldIgnoreSigsys
  constructor
  · exact decide_eq_true_iff
  · rw [decide_eq_false_iff_not]
    omega

/-- C2, as stated, fails: when the version query reports failure by returning
-1 the gate is not false, `init` issues the `sigaction` request for SIGSYS,
and (when that request succeeds) the handler is registered. -/
theorem query_failure_gate_counterexample :
    ¬ (shouldIgnoreSigsys (-1) = false) ∧
      (init (-1) false Process.fresh).sigaction_calls = [(SIGSYS, sigsysAction)] ∧
      (init (-1) false Process.fresh).disposition SIGSYS = sigsysAction := by
  refine ⟨by decide, ?_, ?_⟩
  · have h : init (-1) false Process.fresh = block_sigsys false Process.fresh := rfl
    rw [h, block_sigsys_calls]
    rfl
  · have h : init (-1) false Process.fresh = block_sigsys false Process.fresh := rfl
    rw [h, block_sigsys_disposition]
    rfl

/-- C2, amended: when the version query returns -1 the gate is true, because
-1 is at most 30; `init` then runs `block_sigsys` once, which issues exactly
one `sigaction` request, for SIGSYS with the `sigsys_handler` record. -/
theorem query_failure_gate_true (fails : Bool) (s : Process) :
    shouldIgnoreSigsys (-1) = true ∧
      init (-1) fails s = block_sigsys fails s ∧
      (init (-1) fails s).sigaction_calls = s.sigaction_calls ++ [(SIGSYS, sigsysAction)] := by
  have h : init (-1) fails s = block_sigsys fails s := rfl
  refine ⟨by decide, h, ?_⟩
  rw [h, block_sigsys_calls]

/-! ## Installation -/

/-- C3, evaluation at the failing input: when the `sigaction` call fails,
`block_sigsys` on a fresh process writes the warning line and then also the
informational "Successfully set SIGSYS handler" line, while the disposition
of SIGSYS is still the default one. -/
theorem block_sigsys_failure_log_has_success_line :
    (block_sigsys true Process.fresh).log = [failedLine, successLine] ∧
      (block_sigsys true Process.fresh).disposition SIGSYS = struct_sigaction.zero := by
  constructor
  · rw [block_sigsys_log]
    rfl
  · rw [block_sigsys_disposition]
    rfl

/-- C4: when the gate is true and the `sigaction` call fails, `init` returns a
process state in which the warning-level line "Failed to set SIGSYS handler"
has been appended to the log right after the earlier lines, and the signal
dispositions are the ones from before the call. -/
theorem init_sigaction_failure_warns (api : Int) (s : Process)
    (h : shouldIgnoreSigsys api = true) :
    (∃ rest, (init api true s).log = s.log ++ failedLine :: rest) ∧
      failedLine ∈ (init api true s).log ∧
      failedLine ∈ (block_sigsys true s).log ∧
      failedLine.level = android_LogPriority.ANDROID_LOG_WARN ∧
      failedLine.fmt = "Failed to set SIGSYS handler" ∧
      (init api true s).disposition = s.disposition := by
  have hi : init api true s = block_sigsys true s := by
    unfold init
    rw [if_pos h]
  have hl : (init api true s).log = s.log ++ [failedLine, successLine] := by
    rw [hi, block_sigsys_log]
    rfl
  refine ⟨⟨[successLine], hl⟩, ?_, ?_, rfl, rfl, ?_⟩
  · rw [hl]
    simp
  · rw [← hi, hl]
    simp
  · funext sig
    rw [hi, block_sigsys_disposition]
    rfl

/-- Witness of C4 at API level 30 on a fresh process. -/
theorem init_sigaction_failure_warns_witness :
    shouldIgnoreSigsys 30 = true ∧
      ((∃ rest, (init 30 true Process.fresh).log = Process.fresh.log ++ failedLine :: rest) ∧
        failedLine ∈ (init 30 true Process.fresh).log ∧
        failedLine ∈ (block_sigsys true Process.fresh).log ∧
        failedLine.level = android_LogPriority.ANDROID_LOG_WARN ∧
        failedLine.fmt = "Failed to set SIGSYS handler" ∧
        (init 30 true Process.fresh).disposition = Process.fresh.disposition) :=
  ⟨by decide, init_sigaction_failure_warns 30 Process.fresh (by decide)⟩

/-- C8: when the gate is true and the `sigaction` call succeeds, the lines
that `init` appends to the log are exactly one informational "Successfully
set SIGSYS handler" line, and the warning line is not among them. -/
theorem init_success_logs_info_once (api : Int) (s : Process)
    (h : shouldIgnoreSigsys api = true) :
    (init api false s).log = s.log ++ [successLine] ∧
      successLine.level = android_LogPriority.ANDROID_LOG_INFO ∧
      successLine.fmt = "Successfully set SIGSYS handler" ∧
      List.count successLine [successLine] = 1 ∧
      (∀ l ∈ [successLine], l.level ≠ android_LogPriority.ANDROID_LOG_WARN) := by
  have hi : init api false s = block_sigsys false s := by
    unfold init
    rw [if_pos h]
  refine ⟨?_, rfl, rfl, by simp, ?_⟩
  · rw [hi, block_sigsys_log]
    rfl
  · intro l hl
    rw [List.mem_singleton] at hl
    subst hl
    decide

/-- Witness of C8 at API level 29 on a fresh process. -/
theorem init_success_logs_info_once_witness :
    shouldIgnoreSigsys 29 = true ∧
      ((init 29 false Process.fresh).log = Process.fresh.log ++ [successLine] ∧
        successLine.level = android_LogPriority.ANDROID_LOG_INFO ∧
        successLine.fmt = "Successfully set SIGSYS handler" ∧
        List.count successLine [successLine] = 1 ∧
        (∀ l ∈ [successLine], l.level ≠ android_LogPriority.ANDROID_LOG_WARN)) :=
  ⟨by decide, init_success_logs_info_once 29 Process.fresh (by decide)⟩

/-- C7: `init` installs exactly when the gate is true. With the gate true it
is one run of `block_sigsys`, which issues exactly one `sigaction` request;
with the gate false the process state is returned as it was, so no `sigaction`
request is issued, no disposition changes and no log line is written. -/
theorem init_installs_iff_gate (api : Int) (fails : Bool) (s : Process) :
    (shouldIgnoreSigsys api = true →
        init api fails s = block_sigsys fails s ∧
          (init api fails s).sigaction_calls = s.sigaction_calls ++ [(SIGSYS, sigsysAction)] ∧
          (init api fails s).sigaction_calls.length = s.sigaction_calls.length + 1) ∧
      (shouldIgnoreSigsys api = false →
        init api fails s = s ∧
          (init api fails s).sigaction_calls = s.sigaction_calls ∧
          (init api fails s).disposition SIGSYS = s.disposition SIGSYS ∧
          (init api fails s).log = s.log) := by
  constructor
  · intro h
    have hi : init api fails s = block_sigsys fails s := by
      unfold init
      rw [if_pos h]
    refine ⟨hi, ?_, ?_⟩
    · rw [hi, block_sigsys_calls]
    · rw [hi, block_sigsys_calls]
      simp
  · intro h
    have hi : init api fails s = s := by
      unfold init
      rw [h]
      rfl
    rw [hi]
    exact ⟨rfl, rfl, rfl, rfl⟩

/-- Witness of C7: API level 30 installs, API level 31 leaves a fresh process
untouched. -/
theorem init_installs_iff_gate_witness :
    (shouldIgnoreSigsys 30 = true ∧
        (init 30 false Process.fresh).sigaction_calls.length =
          Process.fresh.sigaction_calls.length + 1) ∧
      (shouldIgnoreSigsys 31 = false ∧
        (init 31 false Process.fresh).sigaction_calls = Process.fresh.sigaction_calls ∧
        (init 31 false Process.fresh).disposition SIGSYS = Process.fresh.disposition SIGSYS ∧
        (init 31 false Process.fresh).log = Process.fresh.log) :=
  ⟨⟨by decide, ((init_installs_iff_gate 30 false Process.fresh).1 (by decide)).2.2⟩,
   ⟨by decide, ((init_installs_iff_gate 31 false Process.fresh).2 (by decide)).2⟩⟩

/-- C10: the one registration that `block_sigsys` requests is for SIGSYS, with
the handler slot set to `sigsys_handler`, `sa_flags` equal to SA_SIGINFO and
the mask and restorer zero; the disposition of every other signal is the one
from before the call. -/
theorem block_sigsys_registration (fails : Bool) (s : Process) :
    (block_sigsys fails s).sigaction_calls =
        s.sigaction_calls ++
          [(SIGSYS, { sa_sigaction := SigHandlerPtr.sigsys_handler, sa_mask := 0,
                      sa_flags := SA_SIGINFO, sa_restorer := 0 })] ∧
      (∀ sig : Int, sig ≠ SIGSYS →
        (block_sigsys fails s).disposition sig = s.disposition sig) := by
  constructor
  · rw [block_sigsys_calls]
    rfl
  · intro sig hsig
    rw [block_sigsys_disposition, if_neg hsig]
    simp

/-- Witness of C10: after a successful `block_sigsys` on a fresh process the
disposition of SIGSEGV (signal 11) is the one from before. -/
theorem block_sigsys_registration_witness :
    (11 : Int) ≠ SIGSYS ∧
      (block_sigsys false Process.fresh).disposition 11 = Process.fresh.disposition 11 :=
  ⟨by decide, (block_sigsys_registration false Process.fresh).2 11 (by decide)⟩

/-- C9: two successful runs of `block_sigsys` leave the same disposition table
as one successful run, with SIGSYS routed to `sigsys_handler` under
SA_SIGINFO; and from an installed state, a run of `block_sigsys` (whether its
`sigaction` call succeeds or fails) or a run of `sigsys_handler` ends in an
installed state. -/
theorem block_sigsys_twice_stable (s : Process) :
    (block_sigsys false (block_sigsys false s)).disposition =
        (block_sigsys false s).disposition ∧
      (block_sigsys false s).disposition SIGSYS =
        { sa_sigaction := SigHandlerPtr.sigsys_handler, sa_mask := 0,
          sa_flags := SA_SIGINFO, sa_restorer := 0 } ∧
      (∀ t : Process, Installed t →
        (∀ fails : Bool, Installed (block_sigsys fails t)) ∧
          (∀ (strerror : Int → String) (signum : Int) (info : siginfo_t) (context : Nat),
            Installed (sigsys_handler strerror signum info context t))) := by
  refine ⟨?_, ?_, ?_⟩
  · funext sig
    rw [block_sigsys_disposition, block_sigsys_disposition]
    by_cases h : sig = SIGSYS <;> simp [h]
  · rw [block_sigsys_disposition]
    rfl
  · intro t ht
    constructor
    · intro fails
      unfold Installed at ht ⊢
      rw [block_sigsys_disposition]
      cases fails <;> simp [ht]
    · intro strerror signum info context
      unfold Installed at ht ⊢
      rw [sigsys_handler_disposition]
      exact ht

/-- Witness of C9: the state after one successful installation on a fresh
process is installed, and stays installed through a failing second
`block_sigsys` and through a handler run. -/
theorem block_sigsys_twice_stable_witness :
    Installed (block_sigsys false Process.fresh) ∧
      Installed (block_sigsys true (block_sigsys false Process.fresh)) ∧
      Installed (sigsys_handler strerrorSample 31 seccompEvent 0
        (block_sigsys false Process.fresh)) :=
  have hi : Installed (block_sigsys false Process.fresh) := by
    unfold Installed
    rfl
  ⟨hi,
   ((block_sigsys_twice_stable Process.fresh).2.2 (block_sigsys false Process.fresh) hi).1 true,
   ((block_sigsys_twice_stable Process.fresh).2.2 (block_sigsys false Process.fresh) hi).2
      strerrorSample 31 seccompEvent 0⟩

/-! ## Handler -/

/-- C5: for a fault event whose `si_code` is SYS_SECCOMP, `sigsys_handler`
appends exactly one line to the log, at warning level, whose arguments are in
this order the call address, the architecture, the syscall number and the
`strerror` text of `si_errno`; the dispositions and the `sigaction` trace are
the ones from before. -/
theorem sigsys_handler_seccomp (strerror : Int → String) (signum : Int)
    (info : siginfo_t) (context : Nat) (s : Process)
    (h : info.si_code = SYS_SECCOMP) :
    (sigsys_handler strerror signum info context s).log =
        s.log ++
          [{ level := android_LogPriority.ANDROID_LOG_WARN, tag := "pidfdhack",
             fmt := "Received seccomp SIGSYS (call=%p, arch=%u, syscall=%d): %s",
             args := [LogArg.ptr info.si_call_addr, LogArg.uint info.si_arch,
                      LogArg.int info.si_syscall, LogArg.str (strerror info.si_errno)] }] ∧
      (sigsys_handler strerror signum info context s).disposition = s.disposition ∧
      (sigsys_handler strerror signum info context s).sigaction_calls = s.sigaction_calls := by
  refine ⟨?_, sigsys_handler_disposition _ _ _ _ _, sigsys_handler_calls _ _ _ _ _⟩
  unfold sigsys_handler
  rw [if_pos h]
  rfl

/-- Witness of C5: the sample seccomp fault at address 0x1000 with syscall 42. -/
theorem sigsys_handler_seccomp_witness :
    seccompEvent.si_code = SYS_SECCOMP ∧
      (sigsys_handler strerrorSample 31 seccompEvent 0 Process.fresh).log =
        Process.fresh.log ++
          [{ level := android_LogPriority.ANDROID_LOG_WARN, tag := "pidfdhack",
             fmt := "Received seccomp SIGSYS (call=%p, arch=%u, syscall=%d): %s",
             args := [LogArg.ptr seccompEvent.si_call_addr, LogArg.uint seccompEvent.si_arch,
                      LogArg.int seccompEvent.si_syscall,
                      LogArg.str (strerrorSample seccompEvent.si_errno)] }] :=
  ⟨by decide, (sigsys_handler_seccomp strerrorSample 31 seccompEvent 0 Process.fresh
    (by decide)).1⟩

/-- C6: for a fault event whose `si_code` differs from SYS_SECCOMP,
`sigsys_handler` appends exactly one line to the log, at warning level, with
the non-seccomp text and the `strerror` text of `si_errno` as its only
argument; two such events with the same `si_errno` give the same resulting
log, whatever their other members are. -/
theorem sigsys_handler_non_seccomp (strerror : Int → String) (signum signum2 : Int)
    (info info2 : siginfo_t) (context context2 : Nat) (s : Process)
    (h : info.si_code ≠ SYS_SECCOMP) (h2 : info2.si_code ≠ SYS_SECCOMP)
    (he : info.si_errno = info2.si_errno) :
    (sigsys_handler strerror signum info context s).log =
        s.log ++
          [{ level := android_LogPriority.ANDROID_LOG_WARN, tag := "pidfdhack",
             fmt := "Received non-seccomp SIGSYS: %s",
             args := [LogArg.str (strerror info.si_errno)] }] ∧
      (sigsys_handler strerror signum info context s).log =
        (sigsys_handler strerror signum2 info2 context2 s).log := by
  have e1 : ∀ (sg : Int) (i : siginfo_t) (c : Nat), i.si_code ≠ SYS_SECCOMP →
      (sigsys_handler strerror sg i c s).log =
        s.log ++
          [{ level := android_LogPriority.ANDROID_LOG_WARN, tag := "pidfdhack",
             fmt := "Received non-seccomp SIGSYS: %s",
             args := [LogArg.str (strerror i.si_errno)] }] := by
    intro sg i c hi
    unfold sigsys_handler
    rw [if_neg hi]
    rfl
  refine ⟨e1 signum info context h, ?_⟩
  rw [e1 signum info context h, e1 signum2 info2 context2 h2, he]

/-- Witness of C6: two non-seccomp events with the same `si_errno` and
different address, architecture, syscall and `si_code` members. -/
theorem sigsys_handler_non_seccomp_witness :
    otherEvent.si_code ≠ SYS_SECCOMP ∧
      ({ si_code := 2, si_errno := 1, si_call_addr := 0x2000, si_arch := 3,
         si_syscall := 434 } : siginfo_t).si_code ≠ SYS_SECCOMP ∧
      (sigsys_handler strerrorSample 31 otherEvent 0 Process.fresh).log =
        (sigsys_handler strerrorSample 31
          { si_code := 2, si_errno := 1, si_call_addr := 0x2000, si_arch := 3,
            si_syscall := 434 } 5 Process.fresh).log :=
  ⟨by decide, by decide,
   (sigsys_handler_non_seccomp strerrorSample 31 31 otherEvent
      { si_code := 2, si_errno := 1, si_call_addr := 0x2000, si_arch := 3, si_syscall := 434 }
      0 5 Process.fresh (by decide) (by decide) rfl).2⟩

end pidfdhack
